import Mathlib

/-
Verification development for the audio-workflow repository
(src/audio_workflow/workflow.py).  The Python module is shallowly
embedded below: dictionaries become structures with Option fields for
possibly-absent keys, filesystem and subprocess effects become explicit
oracle parameters, and the run is modelled as a pure function that also
returns the list of externally visible events (adapter invocations and
file deletions).  Python exceptions inside the try block of run_workflow
are modelled with Except; the UnboundLocalError that Python raises when
a never-assigned local is referenced is modelled by an Option that is
none exactly when the corresponding Python local is unbound.
-/

namespace AW

/-- Python truthiness of an optional string (None and the empty string
are falsy, every other string is truthy). -/
def truthyOpt : Option String → Bool
  | none => false
  | some s => if s = "" then false else true

/-- Python expression a or b on optional strings: a if a is truthy,
otherwise b. -/
def pyOrStr (a b : Option String) : Option String :=
  if truthyOpt a then a else b

/-- Membership test on a list of strings, modelling the Python "in"
operator on the step list. -/
def memStr : List String → String → Bool
  | [], _ => false
  | y :: rest, x => if y = x then true else memStr rest x

/-- First-match association-list lookup, modelling Python dict lookup. -/
def alookup {α : Type} : List (String × α) → String → Option α
  | [], _ => none
  | (k, v) :: rest, x => if k = x then some v else alookup rest x

/-- Split a character list at every slash (helper for the pathlib
model). -/
def splitSlashAux : List Char → List Char → List (List Char)
  | [], acc => [acc.reverse]
  | c :: rest, acc =>
    if c = '/' then acc.reverse :: splitSlashAux rest [] else splitSlashAux rest (c :: acc)

/-- Model of pathlib PurePosixPath(s).name: the last nonempty,
non-dot component of the path. -/
def pyName (s : String) : String :=
  let comps := (splitSlashAux s.data []).filter
    (fun c => if c = [] then false else if c = ['.'] then false else true)
  match comps.getLast? with
  | some c => String.mk c
  | none => ""

/-- Index of the last dot in a character list, if any (CPython uses
name.rfind for the stem computation). -/
def lastDotIdx : List Char → Option Nat
  | [] => none
  | c :: rest =>
    match lastDotIdx rest with
    | some i => some (i + 1)
    | none => if c = '.' then some 0 else none

/-- Model of pathlib Path(s).stem: the final component without its last
suffix.  CPython: i = name.rfind(dot); name[:i] if 0 < i < len(name)-1
else name. -/
def pyStem (s : String) : String :=
  let n := (pyName s).data
  match lastDotIdx n with
  | some i => if 0 < i ∧ i + 1 < n.length then String.mk (n.take i) else String.mk n
  | none => String.mk n

/-- Model of the pathlib / operator for the joins performed by the
module (right operand is always a plain relative name there). -/
def pjoin (a b : String) : String :=
  if a = "" then b
  else if a.data.getLast? = some '/' then a ++ b
  else a ++ "/" ++ b

/-- Model of the Python str.startswith slash test used for
absolute-path detection in the orchestrator init. -/
def startsWithSlash (s : String) : Bool :=
  match s.data with
  | [] => false
  | c :: _ => if c = '/' then true else false

/-- Model of str.upper restricted to the ASCII behaviour used for the
per-database environment-variable key. -/
def pyUpper (s : String) : String :=
  String.mk (s.data.map Char.toUpper)

/-- Workflow definition as read from the workflows table of the
configuration: each key may be absent. -/
structure WorkflowCfg where
  steps : Option (List String)
  deepcast_model : Option String
  deepcast_temperature : Option String
  deriving DecidableEq, Repr

/-- The defaults table of the configuration; every key may be absent
(an absent defaults table is the all-none record). -/
structure Defaults where
  output_dir : Option String
  temp_dir : Option String
  database : Option String
  workflow : Option String
  keep_files : Option Bool
  deriving DecidableEq, Repr

/-- The loaded configuration document: defaults, databases
(name to id) and workflows (name to definition). -/
structure Config where
  defaults : Defaults
  databases : List (String × String)
  workflows : List (String × WorkflowCfg)
  deriving DecidableEq, Repr

def emptyDefaults : Defaults := ⟨none, none, none, none, none⟩

def emptyWorkflowCfg : WorkflowCfg := ⟨none, none, none⟩

/-- The empty configuration, modelling the empty Python dict returned
when no file is found or loading fails. -/
def emptyConfig : Config := ⟨emptyDefaults, [], []⟩

/-- Model of workflow.py lines 62 to 68 and 33 to 37: the original
working directory comes from AUDIO_WORKFLOW_ORIGINAL_CWD, falling back
to the current working directory when the variable is unset or empty. -/
def originalCwdOf (env : String → Option String) (cwd : String) : String :=
  match env "AUDIO_WORKFLOW_ORIGINAL_CWD" with
  | some s => if s = "" then cwd else s
  | none => cwd

/-- Model of workflow.py lines 28 and 39 to 47: resolution of the
output directory from the output_dir default setting. -/
def orchestratorOutputDir (cfg : Config) (env : String → Option String) (cwd : String) : String :=
  if cfg.defaults.output_dir.getD "." = "." then originalCwdOf env cwd
  else if startsWithSlash (cfg.defaults.output_dir.getD ".") = true then
    cfg.defaults.output_dir.getD "."
  else pjoin (originalCwdOf env cwd) (cfg.defaults.output_dir.getD ".")

/-- Model of workflow.py lines 29 and 49 to 54: resolution of the temp
directory; a relative setting joins under the current working
directory, not the original one. -/
def orchestratorTempDir (cfg : Config) (cwd : String) : String :=
  if startsWithSlash (cfg.defaults.temp_dir.getD "/tmp") = true then
    cfg.defaults.temp_dir.getD "/tmp"
  else pjoin cwd (cfg.defaults.temp_dir.getD "/tmp")

/-- Model of _validate_environment (lines 125 to 135): both credential
variables must be set and nonempty. -/
def validateEnvironment (env : String → Option String) : Bool :=
  truthyOpt (env "OPENAI_API_KEY") && truthyOpt (env "NOTION_API_KEY")

/-- Model of _get_database_id (lines 111 to 119): configuration mapping
first, then the per-name environment variable, then the generic
NOTION_DATABASE_ID fallback (Python or-chaining). -/
def getDatabaseId (cfg : Config) (env : String → Option String) (name : String) : Option String :=
  match alookup cfg.databases name with
  | some v => some v
  | none => pyOrStr (env (pyUpper name ++ "_DATABASE_ID")) (env "NOTION_DATABASE_ID")

/-- Model of _get_workflow_config (lines 121 to 123): unknown names
yield the empty dict. -/
def getWorkflowConfig (cfg : Config) (name : String) : WorkflowCfg :=
  (alookup cfg.workflows name).getD emptyWorkflowCfg

/-- The hardcoded default step list of run_workflow line 165. -/
def defaultSteps : List String := ["transcribe", "deepcast", "notion-upload"]

/-- Model of run_workflow line 165: the steps key of the workflow
configuration, defaulting when the key is absent. -/
def resolveSteps (cfg : Config) (name : String) : List String :=
  (getWorkflowConfig cfg name).steps.getD defaultSteps

/-- The environment of the configuration discovery: process environment
variables, current working directory, home directory, argv, and the
resolved parent directory of a script path (Path(p).resolve().parent,
an operating-system operation taken as an oracle). -/
structure DiscoveryEnv where
  envVars : String → Option String
  cwd : String
  home : String
  argv : List String
  resolveParent : String → String

/-- Model of the candidate list of _load_config lines 71 to 87, in
source order, with the None entries filtered out. -/
def configLocations (d : DiscoveryEnv) : List String :=
  let oc := originalCwdOf d.envVars d.cwd
  List.filterMap id
    [some (pjoin oc "audio-workflow.yaml"),
     some (pjoin oc "config.yaml"),
     some (pjoin (pjoin (pjoin d.home ".config") "audio-workflow") "config.yaml"),
     some (pjoin d.home ".audio-workflow.yaml"),
     (match d.envVars "AUDIO_WORKFLOW_CONFIG" with
      | some s => if s = "" then none else some s
      | none => none),
     (match d.argv with
      | [] => none
      | a :: _ => some (pjoin (d.resolveParent a) "config.yaml"))]

/-- Filesystem oracle for configuration loading: existence of a path,
and the outcome of opening plus YAML-parsing a path.  The outer none
models an exception (missing file or parse error); some none models a
falsy parse result (empty document); some (some c) a parsed document. -/
structure FileSys where
  existsF : String → Bool
  parse : String → Option (Option Config)

/-- Model of _load_single_config (lines 102 to 109).  Returns the list
of paths opened, the resulting configuration, and whether the warning
branch was taken. -/
def loadSingleConfig (fs : FileSys) (p : String) : List String × Config × Bool :=
  match fs.parse p with
  | none => ([p], emptyConfig, true)
  | some none => ([p], emptyConfig, false)
  | some (some c) => ([p], c, false)

/-- Model of the discovery loop of _load_config lines 89 to 100: the
first existing candidate is loaded; if none exists the empty
configuration is returned and nothing is opened. -/
def loadDiscovered (d : DiscoveryEnv) (fs : FileSys) : List String × Config :=
  match (configLocations d).find? fs.existsF with
  | some p => ((loadSingleConfig fs p).1, (loadSingleConfig fs p).2.1)
  | none => ([], emptyConfig)

/-- Model of _load_config (lines 56 to 100): a truthy explicit path is
loaded directly, otherwise discovery runs. -/
def loadConfig (d : DiscoveryEnv) (fs : FileSys) (explicitPath : Option String) :
    List String × Config :=
  match explicitPath with
  | some p =>
    if p = "" then loadDiscovered d fs
    else ((loadSingleConfig fs p).1, (loadSingleConfig fs p).2.1)
  | none => loadDiscovered d fs

/-- Python exception values relevant to the model: the
UnboundLocalError raised by referencing a never-assigned local, and an
arbitrary other exception. -/
inductive PyExn where
  | nameError
  | otherExn
  deriving DecidableEq, Repr

/-- Externally visible events of a run: adapter invocations, successful
deletions, and failed (logged) deletions. -/
inductive Event where
  | transcribeCall (audio : String)
  | deepcastCall (transcript : String)
  | notionCall (file title dbid : String)
  | unlink (path : String)
  | unlinkFailed (path : String)
  deriving DecidableEq, Repr

/-- Oracles for the step adapters and the filesystem operations of
cleanup, at the granularity at which run_workflow observes them.
transcribeA and deepcastA return the optional output path of
_run_transcribe and _run_deepcast (those functions catch their own
exceptions, but the oracle is allowed to raise so that the outer
handler of run_workflow is exercised in full generality). -/
structure Adapters where
  transcribeA : String → Except PyExn (Option String)
  deepcastA : String → WorkflowCfg → Except PyExn (Option String)
  notionA : String → String → String → Except PyExn Bool
  unlinkA : String → Except PyExn Unit
  existsA : String → Bool

/-- The arguments of run_workflow (lines 137 to 139). -/
structure RunArgs where
  audio_file : String
  title : Option String
  database : Option String
  workflow : Option String
  keep_files : Option Bool
  deriving DecidableEq, Repr

/-- Model of _cleanup_files (lines 308 to 316): each file is deleted if
truthy, different from the literal string audio_file, and existing;
unlink failures are caught and logged per file. -/
def cleanupFiles (A : Adapters) : List String → List Event
  | [] => []
  | f :: rest =>
    if f ≠ "" ∧ f ≠ "audio_file" ∧ A.existsA f = true then
      (match A.unlinkA f with
       | Except.ok _ => Event.unlink f
       | Except.error _ => Event.unlinkFailed f) :: cleanupFiles A rest
    else cleanupFiles A rest

/-- Model of run_workflow lines 198 to 204: the cleanup conditional and
the success return.  dfile is the Python local deepcast_file; none
means the local was never assigned, so evaluating the first branch of
the conditional expression on line 200 raises UnboundLocalError. -/
def cleanupPhase (A : Adapters) (steps : List String) (keep : Bool)
    (t : String) (dfile : Option String) (tr : List Event) :
    List Event × Except PyExn Bool :=
  if keep = true then (tr, Except.ok true)
  else
    if memStr steps "deepcast" = true then
      match dfile with
      | none => (tr, Except.error PyExn.nameError)
      | some d => (tr ++ cleanupFiles A [t, d], Except.ok true)
    else (tr ++ cleanupFiles A [t], Except.ok true)

/-- Model of run_workflow lines 193 to 196: the notion-upload step,
falling through to cleanup. -/
def uploadPhase (A : Adapters) (title dbid : String) (steps : List String) (keep : Bool)
    (t : String) (dfile : Option String) (md : String) (tr : List Event) :
    List Event × Except PyExn Bool :=
  if memStr steps "notion-upload" = true then
    match A.notionA md title dbid with
    | Except.error e => (tr ++ [Event.notionCall md title dbid], Except.error e)
    | Except.ok false => (tr ++ [Event.notionCall md title dbid], Except.ok false)
    | Except.ok true => cleanupPhase A steps keep t dfile (tr ++ [Event.notionCall md title dbid])
  else cleanupPhase A steps keep t dfile tr

/-- Model of run_workflow lines 184 to 191: the deepcast step runs only
when the step is listed and the transcript differs from the audio file;
otherwise the markdown file is the transcript and the deepcast local
stays unbound. -/
def deepcastPhase (A : Adapters) (title dbid : String) (wc : WorkflowCfg)
    (steps : List String) (keep : Bool) (audio t : String) (tr : List Event) :
    List Event × Except PyExn Bool :=
  if memStr steps "deepcast" = true ∧ t ≠ audio then
    match A.deepcastA t wc with
    | Except.error e => (tr ++ [Event.deepcastCall t], Except.error e)
    | Except.ok none => (tr ++ [Event.deepcastCall t], Except.ok false)
    | Except.ok (some d) =>
      if d = "" then (tr ++ [Event.deepcastCall t], Except.ok false)
      else uploadPhase A title dbid steps keep t (some d) d (tr ++ [Event.deepcastCall t])
  else uploadPhase A title dbid steps keep t none t tr

/-- Model of run_workflow lines 176 to 182: the transcribe step, or the
pass-through that makes the audio file itself the transcript. -/
def transcribePhase (A : Adapters) (title dbid : String) (wc : WorkflowCfg)
    (steps : List String) (keep : Bool) (audio : String) :
    List Event × Except PyExn Bool :=
  if memStr steps "transcribe" = true then
    match A.transcribeA audio with
    | Except.error e => ([Event.transcribeCall audio], Except.error e)
    | Except.ok none => ([Event.transcribeCall audio], Except.ok false)
    | Except.ok (some t) =>
      if t = "" then ([Event.transcribeCall audio], Except.ok false)
      else deepcastPhase A title dbid wc steps keep audio t [Event.transcribeCall audio]
  else deepcastPhase A title dbid wc steps keep audio audio []

/-- Model of the title resolution of run_workflow lines 153 to 155: a
falsy title argument is replaced by the stem of the audio file. -/
def runTitle (args : RunArgs) : String :=
  match args.title with
  | none => pyStem args.audio_file
  | some s => if s = "" then pyStem args.audio_file else s

/-- The step list of a run, as resolved on lines 148, 149, 164 and
165: the workflow name comes from the argument or the defaults table,
and the step list from the workflows table or the hardcoded default. -/
def runSteps (cfg : Config) (args : RunArgs) : List String :=
  resolveSteps cfg (args.workflow.getD (cfg.defaults.workflow.getD "quick_notes"))

/-- Model of run_workflow lines 137 to 204 up to but not including the
except handler: the pre-checks return ok false directly, and the try
block may end in an uncaught exception.  The first component is the
list of events that occurred. -/
def runWorkflowTry (cfg : Config) (env : String → Option String) (A : Adapters)
    (args : RunArgs) : List Event × Except PyExn Bool :=
  if validateEnvironment env = false then ([], Except.ok false)
  else
    match getDatabaseId cfg env (args.database.getD (cfg.defaults.database.getD "meetings")) with
    | none => ([], Except.ok false)
    | some dbid =>
      if dbid = "" then ([], Except.ok false)
      else
        transcribePhase A (runTitle args) dbid
          (getWorkflowConfig cfg (args.workflow.getD (cfg.defaults.workflow.getD "quick_notes")))
          (runSteps cfg args)
          (args.keep_files.getD (cfg.defaults.keep_files.getD false))
          args.audio_file

/-- Model of run_workflow (lines 137 to 208) with its except handler
(lines 206 to 208): any exception escaping the try block is converted
into the failure result.  Returns the boolean result and the event
trace. -/
def runWorkflow (cfg : Config) (env : String → Option String) (A : Adapters)
    (args : RunArgs) : Bool × List Event :=
  let r := runWorkflowTry cfg env A args
  ((match r.2 with
    | Except.ok b => b
    | Except.error _ => false), r.1)

/-- Filesystem and exit-status outcome of one external tool invocation:
the exit code of the subprocess (check=True raises on a nonzero code,
which the adapter catches) and the state of the disk afterwards. -/
structure ToolEnv where
  exitCode : Int
  fsAfter : String → Bool

/-- The output file that _run_transcribe checks for (line 237):
stem of the audio file plus the -transcript.md ending, inside the
output directory. -/
def transcribeOutPath (outDir audio : String) : String :=
  pjoin outDir (pyStem audio ++ "-transcript.md")

/-- Model of _run_transcribe (lines 210 to 250): success needs exit
code zero and the expected output file on disk; every failure path
returns none. -/
def runTranscribe (outDir : String) (te : ToolEnv) (audio : String) : Option String :=
  if te.exitCode = 0 then
    (if te.fsAfter (transcribeOutPath outDir audio) = true
     then some (transcribeOutPath outDir audio) else none)
  else none

/-- The output file that _run_deepcast writes and checks for (lines 257
to 258 and 274): stem of the transcript plus the -deepcast.md ending. -/
def deepcastOutPath (outDir transcript : String) : String :=
  pjoin outDir (pyStem transcript ++ "-deepcast.md")

/-- Model of _run_deepcast (lines 252 to 286): success needs exit code
zero and the expected output file on disk; every failure path returns
none. -/
def runDeepcastStep (outDir : String) (te : ToolEnv) (transcript : String) : Option String :=
  if te.exitCode = 0 then
    (if te.fsAfter (deepcastOutPath outDir transcript) = true
     then some (deepcastOutPath outDir transcript) else none)
  else none

/-- Concrete process environment with both credentials and the generic
database fallback set. -/
def oracleEnv : String → Option String := fun k =>
  if k = "OPENAI_API_KEY" then some "sk-test"
  else if k = "NOTION_API_KEY" then some "secret"
  else if k = "NOTION_DATABASE_ID" then some "db123"
  else none

/-- Concrete adapters in which every external tool succeeds and every
file exists. -/
def okAdapters : Adapters :=
  { transcribeA := fun _ => Except.ok (some "/out/m-transcript.md")
    deepcastA := fun _ _ => Except.ok (some "/out/m-deepcast.md")
    notionA := fun _ _ _ => Except.ok true
    unlinkA := fun _ => Except.ok ()
    existsA := fun _ => true }

/-- Configuration whose default workflow lists deepcast and
notion-upload but not transcribe. -/
def cfgSkipTranscribe : Config :=
  { defaults := { emptyDefaults with workflow := some "wf" }
    databases := []
    workflows := [("wf", { steps := some ["deepcast", "notion-upload"]
                           deepcast_model := none
                           deepcast_temperature := none })] }

/-- Configuration whose default workflow lists only notion-upload. -/
def cfgUploadOnly : Config :=
  { defaults := { emptyDefaults with workflow := some "wf2" }
    databases := []
    workflows := [("wf2", { steps := some ["notion-upload"]
                            deepcast_model := none
                            deepcast_temperature := none })] }

/-- Configuration whose default workflow lists only deepcast. -/
def cfgDeepOnly : Config :=
  { defaults := { emptyDefaults with workflow := some "wfd" }
    databases := []
    workflows := [("wfd", { steps := some ["deepcast"]
                            deepcast_model := none
                            deepcast_temperature := none })] }

/-- Run arguments with every optional field unset. -/
def argsM : RunArgs :=
  { audio_file := "/music/m.mp3", title := none, database := none
    workflow := none, keep_files := none }

/-- Run arguments for an audio file whose stem is meeting. -/
def argsMeeting : RunArgs :=
  { audio_file := "/tmp/meeting.mp3", title := none, database := none
    workflow := none, keep_files := none }

/-- Run arguments used for the deepcast gating instantiation. -/
def argsA4 : RunArgs :=
  { audio_file := "/a/m.mp3", title := none, database := none
    workflow := none, keep_files := none }

/-- Concrete discovery environment: no relevant environment variables,
current directory /cw, home /home/u, one argv entry. -/
def discW : DiscoveryEnv :=
  { envVars := fun _ => none, cwd := "/cw", home := "/home/u"
    argv := ["/usr/bin/tool"], resolveParent := fun _ => "/usr/bin" }

/-- A sample parsed configuration document. -/
def cfgFound : Config :=
  { defaults := { emptyDefaults with output_dir := some "." }
    databases := [], workflows := [] }

/-- Concrete filesystem in which only the second discovery candidate
exists and parses to cfgFound. -/
def fsW : FileSys :=
  { existsF := fun p => if p = "/cw/config.yaml" then true else false
    parse := fun p => if p = "/cw/config.yaml" then some (some cfgFound) else none }

/-- Concrete filesystem in which nothing exists and every open or
parse attempt raises. -/
def fsBad : FileSys :=
  { existsF := fun _ => false, parse := fun _ => none }

/-- Configuration with one workflow that has a steps entry and one
workflow without a steps entry. -/
def cfgW3 : Config :=
  { defaults := emptyDefaults
    databases := []
    workflows := [("w", { steps := some ["transcribe"]
                          deepcast_model := none
                          deepcast_temperature := none }),
                  ("v", emptyWorkflowCfg)] }

/-- Process environment carrying an original working directory that
differs from the current one. -/
def envC6 : String → Option String := fun k =>
  if k = "AUDIO_WORKFLOW_ORIGINAL_CWD" then some "/orig" else none

/-- Configuration with a relative output directory and a relative temp
directory. -/
def cfgC6 : Config :=
  { defaults := { output_dir := some "out", temp_dir := some "scratch"
                  database := none, workflow := none, keep_files := none }
    databases := [], workflows := [] }

/-- Process environment in which NOTION_API_KEY is missing. -/
def envNoNotion : String → Option String := fun k =>
  if k = "OPENAI_API_KEY" then some "sk" else none

/-- Tool outcome: exit code zero but no file written. -/
def teMissingFile : ToolEnv := ⟨0, fun _ => false⟩

/-- Tool outcome: nonzero exit code, file present. -/
def teNonzero : ToolEnv := ⟨2, fun _ => true⟩

/-- Every event produced by cleanupFiles is a deletion event. -/
theorem mem_cleanupFiles (A : Adapters) (e : Event) :
    ∀ fs : List String, e ∈ cleanupFiles A fs →
      (∃ p, e = Event.unlink p) ∨ (∃ p, e = Event.unlinkFailed p) := by
  intro fs
  induction fs with
  | nil => intro h; simp [cleanupFiles] at h
  | cons f rest ih =>
    intro h
    simp only [cleanupFiles] at h
    split at h
    · rcases List.mem_cons.mp h with h1 | h2
      · cases hu : A.unlinkA f with
        | ok v => rw [hu] at h1; exact Or.inl ⟨f, h1⟩
        | error ex => rw [hu] at h1; exact Or.inr ⟨f, h1⟩
      · exact ih h2
    · exact ih h

/-- The cleanup phase only appends deletion events to the incoming
trace. -/
theorem cleanupPhase_fst (A : Adapters) (steps : List String) (keep : Bool)
    (t : String) (dfile : Option String) (tr : List Event) :
    ∃ l, (cleanupPhase A steps keep t dfile tr).1 = tr ++ l ∧
      ∀ e ∈ l, (∃ p, e = Event.unlink p) ∨ (∃ p, e = Event.unlinkFailed p) := by
  unfold cleanupPhase
  split
  · exact ⟨[], by simp, by intro e he; simp at he⟩
  · split
    · cases dfile with
      | none => exact ⟨[], by simp, by intro e he; simp at he⟩
      | some d => exact ⟨cleanupFiles A [t, d], rfl, fun e he => mem_cleanupFiles A e _ he⟩
    · exact ⟨cleanupFiles A [t], rfl, fun e he => mem_cleanupFiles A e _ he⟩

/-- The upload phase only appends upload and deletion events to the
incoming trace. -/
theorem uploadPhase_fst (A : Adapters) (title dbid : String) (steps : List String)
    (keep : Bool) (t : String) (dfile : Option String) (md : String) (tr : List Event) :
    ∃ l, (uploadPhase A title dbid steps keep t dfile md tr).1 = tr ++ l ∧
      ∀ e ∈ l, (∃ f ti db, e = Event.notionCall f ti db) ∨
        (∃ p, e = Event.unlink p) ∨ (∃ p, e = Event.unlinkFailed p) := by
  unfold uploadPhase
  split
  · cases hn : A.notionA md title dbid with
    | error ex =>
      exact ⟨[Event.notionCall md title dbid], rfl, by
        intro e he; simp at he; subst he; exact Or.inl ⟨md, title, dbid, rfl⟩⟩
    | ok b =>
      cases b with
      | false =>
        exact ⟨[Event.notionCall md title dbid], rfl, by
          intro e he; simp at he; subst he; exact Or.inl ⟨md, title, dbid, rfl⟩⟩
      | true =>
        obtain ⟨l, hl, hs⟩ :=
          cleanupPhase_fst A steps keep t dfile (tr ++ [Event.notionCall md title dbid])
        refine ⟨Event.notionCall md title dbid :: l, ?_, ?_⟩
        · rw [hl]; simp
        · intro e he
          rcases List.mem_cons.mp he with h1 | h2
          · exact Or.inl ⟨md, title, dbid, h1⟩
          · exact Or.inr (hs e h2)
  · obtain ⟨l, hl, hs⟩ := cleanupPhase_fst A steps keep t dfile tr
    exact ⟨l, hl, fun e he => Or.inr (hs e he)⟩

/-- The deepcast phase appends, beyond upload and deletion events, at
most a deepcast invocation of the transcript, and only under the line
185 guard. -/
theorem deepcastPhase_fst (A : Adapters) (title dbid : String) (wc : WorkflowCfg)
    (steps : List String) (keep : Bool) (audio t : String) (tr : List Event) :
    ∃ l, (deepcastPhase A title dbid wc steps keep audio t tr).1 = tr ++ l ∧
      ∀ e ∈ l,
        (e = Event.deepcastCall t ∧ memStr steps "deepcast" = true ∧ t ≠ audio) ∨
        (∃ f ti db, e = Event.notionCall f ti db) ∨
        (∃ p, e = Event.unlink p) ∨ (∃ p, e = Event.unlinkFailed p) := by
  unfold deepcastPhase
  by_cases hg : memStr steps "deepcast" = true ∧ t ≠ audio
  · rw [if_pos hg]
    cases hd : A.deepcastA t wc with
    | error ex =>
      exact ⟨[Event.deepcastCall t], rfl, by
        intro e he; simp at he; subst he; exact Or.inl ⟨rfl, hg.1, hg.2⟩⟩
    | ok o =>
      cases o with
      | none =>
        exact ⟨[Event.deepcastCall t], rfl, by
          intro e he; simp at he; subst he; exact Or.inl ⟨rfl, hg.1, hg.2⟩⟩
      | some d =>
        dsimp only
        by_cases hd0 : d = ""
        · rw [if_pos hd0]
          exact ⟨[Event.deepcastCall t], rfl, by
            intro e he; simp at he; subst he; exact Or.inl ⟨rfl, hg.1, hg.2⟩⟩
        · rw [if_neg hd0]
          obtain ⟨l, hl, hs⟩ :=
            uploadPhase_fst A title dbid steps keep t (some d) d (tr ++ [Event.deepcastCall t])
          refine ⟨Event.deepcastCall t :: l, ?_, ?_⟩
          · rw [hl]; simp
          · intro e he
            rcases List.mem_cons.mp he with h1 | h2
            · exact Or.inl ⟨h1, hg.1, hg.2⟩
            · exact Or.inr (hs e h2)
  · rw [if_neg hg]
    obtain ⟨l, hl, hs⟩ := uploadPhase_fst A title dbid steps keep t none t tr
    exact ⟨l, hl, fun e he => Or.inr (hs e he)⟩

/-- A deepcast invocation in the trace of the step pipeline implies
both the deepcast and the transcribe step are listed, the transcript
came from a successful transcription, and it differs from the audio
file. -/
theorem transcribePhase_deepcast (A : Adapters) (title dbid : String) (wc : WorkflowCfg)
    (steps : List String) (keep : Bool) (audio x : String) :
    Event.deepcastCall x ∈ (transcribePhase A title dbid wc steps keep audio).1 →
      memStr steps "deepcast" = true ∧ memStr steps "transcribe" = true ∧
      A.transcribeA audio = Except.ok (some x) ∧ x ≠ audio ∧
      Event.transcribeCall audio ∈ (transcribePhase A title dbid wc steps keep audio).1 := by
  intro h
  unfold transcribePhase at h
  by_cases ht : memStr steps "transcribe" = true
  · rw [if_pos ht] at h
    cases hta : A.transcribeA audio with
    | error ex => rw [hta] at h; simp at h
    | ok o =>
      cases o with
      | none => rw [hta] at h; simp at h
      | some t =>
        rw [hta] at h
        dsimp only at h
        by_cases ht0 : t = ""
        · rw [if_pos ht0] at h; simp at h
        · rw [if_neg ht0] at h
          obtain ⟨l, hl, hs⟩ :=
            deepcastPhase_fst A title dbid wc steps keep audio t [Event.transcribeCall audio]
          rw [hl] at h
          rcases List.mem_append.mp h with h1 | h2
          · simp at h1
          · rcases hs _ h2 with ⟨he, hd, hne⟩ | ⟨f, ti, db, he⟩ | ⟨p, he⟩ | ⟨p, he⟩
            · injection he with hx
              subst hx
              refine ⟨hd, ht, rfl, hne, ?_⟩
              unfold transcribePhase
              rw [if_pos ht, hta]
              dsimp only
              rw [if_neg ht0, hl]
              exact List.mem_append.mpr (Or.inl (by simp))
            · simp at he
            · simp at he
            · simp at he
  · rw [if_neg ht] at h
    obtain ⟨l, hl, hs⟩ := deepcastPhase_fst A title dbid wc steps keep audio audio []
    rw [hl] at h
    rcases List.mem_append.mp h with h1 | h2
    · simp at h1
    · rcases hs _ h2 with ⟨he, hd, hne⟩ | ⟨f, ti, db, he⟩ | ⟨p, he⟩ | ⟨p, he⟩
      · exact absurd rfl hne
      · simp at he
      · simp at he
      · simp at he

/-- Characterization of List.find?: the found element satisfies the
predicate and every earlier element fails it. -/
theorem findFirstSpec (f : String → Bool) :
    ∀ (l : List String) (p : String), l.find? f = some p →
      f p = true ∧ ∃ l1 l2, l = l1 ++ p :: l2 ∧ ∀ q ∈ l1, f q = false := by
  intro l
  induction l with
  | nil => intro p h; simp at h
  | cons a rest ih =>
    intro p h
    unfold List.find? at h
    cases hfa : f a with
    | true =>
      rw [hfa] at h
      injection h with h'
      subst h'
      exact ⟨hfa, [], rest, rfl, by intro q hq; simp at hq⟩
    | false =>
      rw [hfa] at h
      obtain ⟨hp, l1, l2, hsplit, hall⟩ := ih p h
      refine ⟨hp, a :: l1, l2, by rw [hsplit]; rfl, ?_⟩
      intro q hq
      rcases List.mem_cons.mp hq with h1 | h2
      · rw [h1]; exact hfa
      · exact hall q h2

/-- C1: the claim says a failure arising during the cleanup phase is
logged only and never turns a successful run into a failed one.  The
code violates this: with steps deepcast and notion-upload (transcribe
omitted), the upload succeeds, yet building the cleanup list on line
200 references the never-assigned deepcast_file local, the resulting
UnboundLocalError escapes to the outer handler, and the run returns
failure.  This theorem evaluates the model at that input: the try block
ends in the unbound-local exception after a successful upload, and
run_workflow returns false. -/
theorem c1_cleanup_error_flips_success :
    runWorkflowTry cfgSkipTranscribe oracleEnv okAdapters argsM =
      ([Event.notionCall "/music/m.mp3" "m" "db123"], Except.error PyExn.nameError) ∧
    runWorkflow cfgSkipTranscribe oracleEnv okAdapters argsM =
      (false, [Event.notionCall "/music/m.mp3" "m" "db123"]) :=
  ⟨rfl, rfl⟩

/-- C2: the claim says cleanup never deletes the original audio file.
The code violates this: with steps consisting only of notion-upload,
the transcript local is the audio file itself, and the guard on line
311 compares against the literal string audio_file rather than the
variable, so the successful run deletes the original audio file.  This
theorem evaluates the model at that input: the run succeeds and the
trace contains a deletion of the audio path given by the caller. -/
theorem c2_cleanup_deletes_original_audio :
    runWorkflow cfgUploadOnly oracleEnv okAdapters argsMeeting =
      (true, [Event.notionCall "/tmp/meeting.mp3" "meeting" "db123",
              Event.unlink "/tmp/meeting.mp3"]) ∧
    argsMeeting.audio_file = "/tmp/meeting.mp3" :=
  ⟨rfl, rfl⟩

/-- C3: the resolved step list equals the steps entry of the named
workflow, and equals the default list transcribe, deepcast,
notion-upload whenever the workflow name is unknown or the named
workflow has no steps entry. -/
theorem c3_steps_resolution (cfg : Config) (name : String) :
    (alookup cfg.workflows name = none → resolveSteps cfg name = defaultSteps) ∧
    (∀ wc, alookup cfg.workflows name = some wc → wc.steps = none →
       resolveSteps cfg name = defaultSteps) ∧
    (∀ wc s, alookup cfg.workflows name = some wc → wc.steps = some s →
       resolveSteps cfg name = s) ∧
    defaultSteps = ["transcribe", "deepcast", "notion-upload"] := by
  refine ⟨?_, ?_, ?_, rfl⟩
  · intro h; unfold resolveSteps getWorkflowConfig; rw [h]; rfl
  · intro wc h hs; unfold resolveSteps getWorkflowConfig; rw [h]; simp [hs]
  · intro wc s h hs; unfold resolveSteps getWorkflowConfig; rw [h]; simp [hs]

/-- Witness for C3 at a concrete configuration: unknown name, workflow
without steps entry, and workflow with steps entry. -/
theorem c3_steps_resolution_witness :
    resolveSteps cfgW3 "u" = defaultSteps ∧
    resolveSteps cfgW3 "v" = defaultSteps ∧
    resolveSteps cfgW3 "w" = ["transcribe"] :=
  ⟨(c3_steps_resolution cfgW3 "u").1 (by decide),
   (c3_steps_resolution cfgW3 "v").2.1 emptyWorkflowCfg (by decide) rfl,
   (c3_steps_resolution cfgW3 "w").2.2.1
     ⟨some ["transcribe"], none, none⟩ ["transcribe"] (by decide) rfl⟩

/-- C4: the deepcast step executes only when deepcast is in the
resolved step list and a transcription actually occurred in the run:
any deepcast invocation in the trace implies both steps are listed, the
invoked transcript is the successful result of the transcribe adapter
on the audio file, and it differs from the raw audio path; in
particular deepcast is never invoked on the audio path when
transcription was skipped. -/
theorem c4_deepcast_gating (cfg : Config) (env : String → Option String) (A : Adapters)
    (args : RunArgs) (x : String) :
    Event.deepcastCall x ∈ (runWorkflow cfg env A args).2 →
      memStr (runSteps cfg args) "deepcast" = true ∧
      memStr (runSteps cfg args) "transcribe" = true ∧
      A.transcribeA args.audio_file = Except.ok (some x) ∧
      x ≠ args.audio_file ∧
      Event.transcribeCall args.audio_file ∈ (runWorkflow cfg env A args).2 := by
  intro h
  have h' : Event.deepcastCall x ∈ (runWorkflowTry cfg env A args).1 := h
  unfold runWorkflowTry at h'
  by_cases hv : validateEnvironment env = false
  · rw [if_pos hv] at h'; simp at h'
  · rw [if_neg hv] at h'
    cases hdb : getDatabaseId cfg env (args.database.getD (cfg.defaults.database.getD "meetings")) with
    | none => rw [hdb] at h'; simp at h'
    | some dbid =>
      rw [hdb] at h'
      dsimp only at h'
      by_cases h0 : dbid = ""
      · rw [if_pos h0] at h'; simp at h'
      · rw [if_neg h0] at h'
        obtain ⟨h1, h2, h3, h4, h5⟩ :=
          transcribePhase_deepcast A (runTitle args) dbid
            (getWorkflowConfig cfg (args.workflow.getD (cfg.defaults.workflow.getD "quick_notes")))
            (runSteps cfg args)
            (args.keep_files.getD (cfg.defaults.keep_files.getD false))
            args.audio_file x h'
        refine ⟨h1, h2, h3, h4, ?_⟩
        show Event.transcribeCall args.audio_file ∈ (runWorkflowTry cfg env A args).1
        unfold runWorkflowTry
        rw [if_neg hv, hdb]
        dsimp only
        rw [if_neg h0]
        exact h5

/-- Witness for C4 at a concrete run in which deepcast is invoked. -/
theorem c4_deepcast_gating_witness :
    memStr (runSteps emptyConfig argsA4) "transcribe" = true ∧
    okAdapters.transcribeA argsA4.audio_file = Except.ok (some "/out/m-transcript.md") ∧
    "/out/m-transcript.md" ≠ argsA4.audio_file :=
  ⟨(c4_deepcast_gating emptyConfig oracleEnv okAdapters argsA4 "/out/m-transcript.md"
      (by decide)).2.1,
   (c4_deepcast_gating emptyConfig oracleEnv okAdapters argsA4 "/out/m-transcript.md"
      (by decide)).2.2.1,
   (c4_deepcast_gating emptyConfig oracleEnv okAdapters argsA4 "/out/m-transcript.md"
      (by decide)).2.2.2.1⟩

/-- C5: with no explicit configuration path, the discovery loads
exactly the first existing candidate of the priority list (and reads no
other candidate), and yields the empty configuration when no candidate
exists. -/
theorem c5_config_discovery (d : DiscoveryEnv) (fs : FileSys) :
    (∀ p, (configLocations d).find? fs.existsF = some p →
       loadConfig d fs none = ([p], (loadSingleConfig fs p).2.1) ∧
       fs.existsF p = true ∧
       ∃ l1 l2, configLocations d = l1 ++ p :: l2 ∧ ∀ q ∈ l1, fs.existsF q = false) ∧
    ((configLocations d).find? fs.existsF = none → loadConfig d fs none = ([], emptyConfig)) := by
  constructor
  · intro p hp
    obtain ⟨hex, l1, l2, hsplit, hall⟩ := findFirstSpec fs.existsF (configLocations d) p hp
    refine ⟨?_, hex, l1, l2, hsplit, hall⟩
    show loadDiscovered d fs = _
    unfold loadDiscovered
    rw [hp]
    dsimp only
    have h1 : (loadSingleConfig fs p).1 = [p] := by
      unfold loadSingleConfig
      cases fs.parse p with
      | none => rfl
      | some o => cases o <;> rfl
    rw [h1]
  · intro hn
    show loadDiscovered d fs = _
    unfold loadDiscovered
    rw [hn]

/-- Witness for C5: only the second candidate exists and is the one
loaded. -/
theorem c5_config_discovery_witness :
    loadConfig discW fsW none = (["/cw/config.yaml"], cfgFound) ∧
    fsW.existsF "/cw/config.yaml" = true :=
  ⟨((c5_config_discovery discW fsW).1 "/cw/config.yaml" (by decide)).1,
   ((c5_config_discovery discW fsW).1 "/cw/config.yaml" (by decide)).2.1⟩

/-- C6: an output_dir setting of dot resolves to the original working
directory (environment variable with current-directory fallback), a
slash-leading setting is used verbatim, any other setting joins under
the original working directory; temp_dir follows the same
absolute-verbatim rule but a relative temp_dir joins under the current
working directory. -/
theorem c6_path_resolution (cfg : Config) (env : String → Option String) (cwd s : String) :
    (cfg.defaults.output_dir = some "." →
       orchestratorOutputDir cfg env cwd = originalCwdOf env cwd) ∧
    (cfg.defaults.output_dir = some s → startsWithSlash s = true →
       orchestratorOutputDir cfg env cwd = s) ∧
    (cfg.defaults.output_dir = some s → s ≠ "." → startsWithSlash s = false →
       orchestratorOutputDir cfg env cwd = pjoin (originalCwdOf env cwd) s) ∧
    (cfg.defaults.temp_dir = some s → startsWithSlash s = true →
       orchestratorTempDir cfg cwd = s) ∧
    (cfg.defaults.temp_dir = some s → startsWithSlash s = false →
       orchestratorTempDir cfg cwd = pjoin cwd s) ∧
    (env "AUDIO_WORKFLOW_ORIGINAL_CWD" = none → originalCwdOf env cwd = cwd) ∧
    (∀ oc, env "AUDIO_WORKFLOW_ORIGINAL_CWD" = some oc → oc ≠ "" →
       originalCwdOf env cwd = oc) := by
  refine ⟨?_, ?_, ?_, ?_, ?_, ?_, ?_⟩
  · intro h; unfold orchestratorOutputDir; rw [h]; simp
  · intro h hs
    have hne : s ≠ "." := by intro e; subst e; exact absurd hs (by decide)
    unfold orchestratorOutputDir
    rw [h]
    simp [hne, hs]
  · intro h hne hs
    unfold orchestratorOutputDir
    rw [h]
    simp [hne, hs]
  · intro h hs
    unfold orchestratorTempDir
    rw [h]
    simp [hs]
  · intro h hs
    unfold orchestratorTempDir
    rw [h]
    simp [hs]
  · intro h; unfold originalCwdOf; rw [h]
  · intro oc h hoc; unfold originalCwdOf; rw [h]; dsimp only; rw [if_neg hoc]

/-- Witness for C6: with the original directory carried in the
environment, a relative output_dir joins under the original directory
while a relative temp_dir joins under the current one. -/
theorem c6_path_resolution_witness :
    orchestratorOutputDir cfgC6 envC6 "/cur" = "/orig/out" ∧
    orchestratorTempDir cfgC6 "/cur" = "/cur/scratch" :=
  ⟨((c6_path_resolution cfgC6 envC6 "/cur" "out").2.2.1 rfl (by decide) (by decide)).trans
     (by decide),
   ((c6_path_resolution cfgC6 envC6 "/cur" "scratch").2.2.2.2.1 rfl (by decide)).trans
     (by decide)⟩

/-- C7: when a required credential variable is falsy, or the database
name resolves to no truthy id through the configuration mapping, the
per-name environment variable, and the generic fallback, run_workflow
returns failure with an empty event trace: no adapter was invoked and
no file was touched. -/
theorem c7_abort_before_side_effects (cfg : Config) (env : String → Option String)
    (A : Adapters) (args : RunArgs) :
    (truthyOpt (env "OPENAI_API_KEY") = false ∨
     truthyOpt (env "NOTION_API_KEY") = false ∨
     truthyOpt (getDatabaseId cfg env
       (args.database.getD (cfg.defaults.database.getD "meetings"))) = false) →
    runWorkflow cfg env A args = (false, []) := by
  intro h
  have hTry : runWorkflowTry cfg env A args = ([], Except.ok false) := by
    unfold runWorkflowTry
    rcases h with h | h | h
    · rw [if_pos (by simp [validateEnvironment, h])]
    · rw [if_pos (by simp [validateEnvironment, h])]
    · by_cases hv : validateEnvironment env = false
      · rw [if_pos hv]
      · rw [if_neg hv]
        cases hdb : getDatabaseId cfg env
            (args.database.getD (cfg.defaults.database.getD "meetings")) with
        | none => rfl
        | some dbid =>
          rw [hdb] at h
          have h0 : dbid = "" := by
            by_cases hd : dbid = ""
            · exact hd
            · simp [truthyOpt, hd] at h
          dsimp only
          rw [if_pos h0]
  unfold runWorkflow
  rw [hTry]

/-- Witness for C7: a missing NOTION_API_KEY aborts the run with an
empty trace. -/
theorem c7_abort_before_side_effects_witness :
    runWorkflow emptyConfig envNoNotion okAdapters argsM = (false, []) :=
  c7_abort_before_side_effects emptyConfig envNoNotion okAdapters argsM
    (Or.inr (Or.inl (by decide)))

/-- C8: for the transcribe and deepcast adapters, success is equivalent
to a zero exit status together with the expected output file existing
afterward, and a zero exit with a missing output file yields the same
failure result, none, as a nonzero exit. -/
theorem c8_adapter_success_requires_file (outDir : String) (te : ToolEnv)
    (audio transcript : String) :
    ((runTranscribe outDir te audio).isSome = true ↔
       te.exitCode = 0 ∧ te.fsAfter (transcribeOutPath outDir audio) = true) ∧
    (te.exitCode = 0 → te.fsAfter (transcribeOutPath outDir audio) = false →
       runTranscribe outDir te audio = none) ∧
    (te.exitCode ≠ 0 → runTranscribe outDir te audio = none) ∧
    ((runDeepcastStep outDir te transcript).isSome = true ↔
       te.exitCode = 0 ∧ te.fsAfter (deepcastOutPath outDir transcript) = true) ∧
    (te.exitCode = 0 → te.fsAfter (deepcastOutPath outDir transcript) = false →
       runDeepcastStep outDir te transcript = none) ∧
    (te.exitCode ≠ 0 → runDeepcastStep outDir te transcript = none) := by
  refine ⟨?_, ?_, ?_, ?_, ?_, ?_⟩
  · by_cases h0 : te.exitCode = 0
    · by_cases hf : te.fsAfter (transcribeOutPath outDir audio) = true
      · simp [runTranscribe, h0, hf]
      · simp [runTranscribe, h0, hf]
    · simp [runTranscribe, h0]
  · intro h0 hf; simp [runTranscribe, h0, hf]
  · intro h0; simp [runTranscribe, h0]
  · by_cases h0 : te.exitCode = 0
    · by_cases hf : te.fsAfter (deepcastOutPath outDir transcript) = true
      · simp [runDeepcastStep, h0, hf]
      · simp [runDeepcastStep, h0, hf]
    · simp [runDeepcastStep, h0]
  · intro h0 hf; simp [runDeepcastStep, h0, hf]
  · intro h0; simp [runDeepcastStep, h0]

/-- Witness for C8: a zero exit without the output file fails, exactly
like a nonzero exit. -/
theorem c8_adapter_success_requires_file_witness :
    runTranscribe "/o" teMissingFile "/a/m.mp3" = none ∧
    runTranscribe "/o" teNonzero "/a/m.mp3" = none ∧
    runDeepcastStep "/o" teMissingFile "/o/m-transcript.md" = none :=
  ⟨(c8_adapter_success_requires_file "/o" teMissingFile "/a/m.mp3" "x").2.1 rfl rfl,
   (c8_adapter_success_requires_file "/o" teNonzero "/a/m.mp3" "x").2.2.1 (by decide),
   (c8_adapter_success_requires_file "/o" teMissingFile "x" "/o/m-transcript.md").2.2.2.2.1
     rfl rfl⟩

/-- C9: an explicitly specified configuration path that is missing or
fails to parse yields the empty configuration with a logged warning
(the boolean component), and loading returns normally instead of
aborting. -/
theorem c9_explicit_config_degrades (fs : FileSys) (p : String) (d : DiscoveryEnv) :
    fs.parse p = none →
      loadSingleConfig fs p = ([p], emptyConfig, true) ∧
      (p ≠ "" → loadConfig d fs (some p) = ([p], emptyConfig)) := by
  intro h
  constructor
  · unfold loadSingleConfig; rw [h]
  · intro hp
    unfold loadConfig
    dsimp only
    rw [if_neg hp]
    unfold loadSingleConfig
    rw [h]

/-- Witness for C9 at a filesystem in which every open or parse
attempt raises. -/
theorem c9_explicit_config_degrades_witness :
    loadSingleConfig fsBad "/etc/missing.yaml" = (["/etc/missing.yaml"], emptyConfig, true) ∧
    loadConfig discW fsBad (some "/etc/missing.yaml") = (["/etc/missing.yaml"], emptyConfig) :=
  ⟨(c9_explicit_config_degrades fsBad "/etc/missing.yaml" discW rfl).1,
   (c9_explicit_config_degrades fsBad "/etc/missing.yaml" discW rfl).2 (by decide)⟩

/-- C10: run_workflow is a total boolean-valued function of the model:
whatever the try block does, an exception outcome is converted into the
failure result and a normal outcome is passed through, so no exception
raised during step execution or cleanup propagates to the caller. -/
theorem c10_exceptions_converted (cfg : Config) (env : String → Option String)
    (A : Adapters) (args : RunArgs) :
    (∀ tr e, runWorkflowTry cfg env A args = (tr, Except.error e) →
       runWorkflow cfg env A args = (false, tr)) ∧
    (∀ tr b, runWorkflowTry cfg env A args = (tr, Except.ok b) →
       runWorkflow cfg env A args = (b, tr)) := by
  constructor
  · intro tr e h; unfold runWorkflow; rw [h]
  · intro tr b h; unfold runWorkflow; rw [h]

/-- Witness for C10: a run whose try block raises the unbound-local
exception during cleanup returns the failure result. -/
theorem c10_exceptions_converted_witness :
    runWorkflow cfgDeepOnly oracleEnv okAdapters argsM = (false, []) :=
  (c10_exceptions_converted cfgDeepOnly oracleEnv okAdapters argsM).1 [] PyExn.nameError rfl

end AW
